import Mathlib

set_option maxRecDepth 4000

/-!
Shallow embedding of the LC-3 emulator from src/lc3.rs.

Machine words (the Rust i16 values) are represented as natural numbers in
the range [0, 65536); signed readings go through i16ToInt. Wrapping i16
arithmetic becomes explicit arithmetic modulo 65536, bitwise i16 operations
become the corresponding Nat bitwise operations (identical on the 16-bit
range), and the arithmetic right shifts of the source are modelled by
logical shifts, which agree on every bit position the source masks out.
The fallible unchecked i16 addition in register-mode ADD is modelled by an
Option: the none case is the debug-profile overflow panic.
-/

/-- Signed (two's-complement) reading of a 16-bit machine word stored as a
natural number. -/
def i16ToInt (v : Nat) : Int :=
  if v % 65536 < 32768 then ((v % 65536 : Nat) : Int)
  else ((v % 65536 : Nat) : Int) - 65536

/-- Result of one clock cycle, mirroring the emulator's LC3IO enumeration
(Halt, Display(i16), None). -/
inductive LC3Event where
  | Halt : LC3Event
  | Display : Nat → LC3Event
  | None : LC3Event
deriving DecidableEq

/-- The memory subsystem: the 65536-cell array together with the hidden
keyboard-ready latch and the pending display character. -/
structure LC3Memory where
  mem : Nat → Nat
  keyboard_ready : Bool
  last_char : Option Nat

/-- The processor state, field for field as in the Rust LC3 struct. -/
structure LC3 where
  last_ev : LC3Event
  halted : Bool
  ie : Nat
  pc : Nat
  psr : Nat
  saved_usp : Nat
  saved_ssp : Nat
  r0 : Nat
  r1 : Nat
  r2 : Nat
  r3 : Nat
  r4 : Nat
  r5 : Nat
  r6 : Nat
  r7 : Nat
  memory : LC3Memory

/-- LC3Memory::new: zero-initialized memory, latches cleared. -/
def LC3Memory.new : LC3Memory :=
  { mem := fun _ => 0, keyboard_ready := false, last_char := none }

/-- LC3Memory::get: plain array read except at the three read-mapped device
addresses; reading the keyboard-data register clears the ready latch, so the
(possibly updated) memory is returned alongside the value. -/
def LC3Memory.get (m : LC3Memory) (index : Nat) : Nat × LC3Memory :=
  if index = 0xFE04 then (1, m)
  else if index = 0xFE00 then ((if m.keyboard_ready then 1 else 0), m)
  else if index = 0xFE02 then (m.mem index, { m with keyboard_ready := false })
  else (m.mem index, m)

/-- LC3Memory::put: stores at index % 65536; a write to the display-data
register additionally latches the character. -/
def LC3Memory.put (m : LC3Memory) (index : Nat) (value : Nat) : LC3Memory :=
  let m1 := if index = 0xFE06 then { m with last_char := some value } else m
  { m1 with mem := fun a => if a = index % 65536 then value else m1.mem a }

/-- LC3::new: starts halted, interrupt enable set, all registers zero. -/
def LC3.new : LC3 :=
  { last_ev := LC3Event.None, halted := true, ie := 1, pc := 0, psr := 0,
    saved_usp := 0, saved_ssp := 0,
    r0 := 0, r1 := 0, r2 := 0, r3 := 0, r4 := 0, r5 := 0, r6 := 0, r7 := 0,
    memory := LC3Memory.new }

/-- LC3::start: clear halted and write 1 to the run/halt control register. -/
def LC3.start (s : LC3) : LC3 :=
  { s with halted := false, memory := s.memory.put 0xFFFE 1 }

/-- LC3::get_reg via LC3::reg: value of the register selected by the low
three bits of the code. -/
def LC3.get_reg (s : LC3) (code : Nat) : Nat :=
  match code &&& 7 with
  | 0 => s.r0
  | 1 => s.r1
  | 2 => s.r2
  | 3 => s.r3
  | 4 => s.r4
  | 5 => s.r5
  | 6 => s.r6
  | _ => s.r7

/-- LC3::put_reg via LC3::reg. -/
def LC3.put_reg (s : LC3) (code : Nat) (data : Nat) : LC3 :=
  match code &&& 7 with
  | 0 => { s with r0 := data }
  | 1 => { s with r1 := data }
  | 2 => { s with r2 := data }
  | 3 => { s with r3 := data }
  | 4 => { s with r4 := data }
  | 5 => { s with r5 := data }
  | 6 => { s with r6 := data }
  | _ => { s with r7 := data }

/-- LC3::codes: clear the bottom three PSR bits, then set Z, P or N from the
sign of the just-computed result. -/
def LC3.codes (s : LC3) (value : Nat) : LC3 :=
  let p := s.psr &&& 0b1111111111111000
  if i16ToInt value = 0 then { s with psr := p ||| 0b010 }
  else if 0 < i16ToInt value then { s with psr := p ||| 0b001 }
  else if i16ToInt value < 0 then { s with psr := p ||| 0b100 }
  else { s with psr := p }

/-- mux: the immediate/register mode bit at position 5 of ADD and AND. -/
def mux (instruction : Nat) : Bool :=
  instruction &&& 0b100000 == 0b100000

/-- The while loop of sign_extend: or the sign bit into positions ctr..15.
The fuel argument is 16, enough for every starting counter. -/
def seGo (b : Nat) : Nat → Nat → Nat → Nat
  | _, out, 0 => out
  | ctr, out, fuel + 1 =>
      if ctr < 16 then seGo b (ctr + 1) (out ||| (b <<< ctr)) fuel else out

/-- sign_extend: replicate bit length-1 of value into all positions up to 15. -/
def sign_extend (value : Nat) (length : Nat) : Nat :=
  seGo ((value >>> (length - 1)) &&& 1) length value 16

/-- Rust i16 addition as used by register-mode ADD: the source uses the
unchecked + operator, which panics (none) when the signed sum overflows;
every other arithmetic site of the source uses wrapping_add or wrapping_sub. -/
def i16AddChecked (a b : Nat) : Option Nat :=
  let sum := i16ToInt a + i16ToInt b
  if sum < -32768 ∨ 32767 < sum then none
  else some (Int.toNat (sum % 65536))

/-- LC3::add: immediate mode wraps (wrapping_add); register mode uses the
unchecked i16 addition. -/
def LC3.add (s : LC3) (instruction : Nat) : Option LC3 :=
  let dr := (instruction >>> 9) &&& 7
  let sr1 := (instruction >>> 6) &&& 7
  if mux instruction then
    let imm := sign_extend (instruction &&& 0b11111) 5
    let res := (s.get_reg sr1 + imm) % 65536
    some ((s.codes res).put_reg dr res)
  else
    let sr2 := instruction &&& 7
    match i16AddChecked (s.get_reg sr1) (s.get_reg sr2) with
    | some res => some ((s.codes res).put_reg dr res)
    | none => none

/-- LC3::and. -/
def LC3.and (s : LC3) (instruction : Nat) : LC3 :=
  let dr := (instruction >>> 9) &&& 7
  let sr1 := (instruction >>> 6) &&& 7
  if mux instruction then
    let imm := sign_extend (instruction &&& 0b11111) 5
    let res := s.get_reg sr1 &&& imm
    (s.codes res).put_reg dr res
  else
    let sr2 := instruction &&& 7
    let res := s.get_reg sr1 &&& s.get_reg sr2
    (s.codes res).put_reg dr res

/-- LC3::br: the source reads the requested n bit from instruction bit 9,
z from bit 10 and p from bit 11. -/
def LC3.br (s : LC3) (instruction : Nat) : LC3 :=
  let n := (s.psr >>> 2) &&& 1
  let z := (s.psr >>> 1) &&& 1
  let p := s.psr &&& 1
  let i_n := (instruction >>> 9) &&& 1
  let i_z := (instruction >>> 10) &&& 1
  let i_p := (instruction >>> 11) &&& 1
  if (i_n = 1 ∧ n = 1) ∨ (i_z = 1 ∧ z = 1) ∨ (i_p = 1 ∧ p = 1) then
    { s with pc := (s.pc + sign_extend (instruction &&& 0b111111111) 9) % 65536 }
  else s

/-- LC3::jmp (also RET). -/
def LC3.jmp (s : LC3) (instruction : Nat) : LC3 :=
  { s with pc := s.get_reg ((instruction >>> 6) &&& 7) }

/-- LC3::jsr / JSRR. -/
def LC3.jsr (s : LC3) (instruction : Nat) : LC3 :=
  let mode := (instruction >>> 11) &&& 1
  let temp := s.pc
  let s1 :=
    if mode = 1 then
      { s with pc := (s.pc + sign_extend (instruction &&& 0b11111111111) 11) % 65536 }
    else
      { s with pc := s.get_reg ((instruction >>> 6) &&& 7) }
  { s1 with r7 := temp }

/-- LC3::ld. -/
def LC3.ld (s : LC3) (instruction : Nat) : LC3 :=
  let dr := (instruction >>> 9) &&& 7
  let addr := (s.pc + sign_extend (instruction &&& 0b111111111) 9) % 65536
  let res := (s.memory.get addr).1
  let m := (s.memory.get addr).2
  (({ s with memory := m }).codes res).put_reg dr res

/-- LC3::ldi. -/
def LC3.ldi (s : LC3) (instruction : Nat) : LC3 :=
  let dr := (instruction >>> 9) &&& 7
  let addr := (s.pc + sign_extend (instruction &&& 0b111111111) 9) % 65536
  let addr2 := (s.memory.get addr).1
  let m1 := (s.memory.get addr).2
  let res := (m1.get (addr2 % 65536)).1
  let m2 := (m1.get (addr2 % 65536)).2
  (({ s with memory := m2 }).codes res).put_reg dr res

/-- LC3::ldr. -/
def LC3.ldr (s : LC3) (instruction : Nat) : LC3 :=
  let dr := (instruction >>> 9) &&& 7
  let base_r := s.get_reg ((instruction >>> 6) &&& 7)
  let offset := sign_extend (instruction &&& 0b111111) 6
  let addr := (base_r + offset) % 65536
  let res := (s.memory.get addr).1
  let m := (s.memory.get addr).2
  (({ s with memory := m }).codes res).put_reg dr res

/-- LC3::lea. -/
def LC3.lea (s : LC3) (instruction : Nat) : LC3 :=
  let dr := (instruction >>> 9) &&& 7
  let addr := (s.pc + sign_extend (instruction &&& 0b111111111) 9) % 65536
  (s.codes addr).put_reg dr addr

/-- LC3::not. -/
def LC3.not (s : LC3) (instruction : Nat) : LC3 :=
  let dr := (instruction >>> 9) &&& 7
  let sr := (instruction >>> 6) &&& 7
  let res := s.get_reg sr ^^^ 0xFFFF
  (s.codes res).put_reg dr res

/-- LC3::exception: context save onto the supervisor stack, clear the
privilege bit, dispatch through the interrupt vector table. -/
def LC3.exception (s : LC3) (code : Nat) : LC3 :=
  let r6b := (s.saved_ssp + 65535) % 65536
  let m1 := s.memory.put r6b s.psr
  let r6c := (r6b + 65535) % 65536
  let m2 := m1.put r6c s.pc
  let psr1 := s.psr &&& 0b0111111111111111
  let v := (m2.get (0x100 + code)).1
  let m3 := (m2.get (0x100 + code)).2
  { s with saved_usp := s.r6, r6 := r6c, memory := m3, psr := psr1, pc := v }

/-- LC3::rti: pop pc then psr in supervisor mode, restore the shadowed user
stack pointer; privilege-violation exception 0 in user mode. -/
def LC3.rti (s : LC3) (_instruction : Nat) : LC3 :=
  let priv_bit := (s.psr >>> 15) &&& 1
  if priv_bit = 0 then
    let v1 := (s.memory.get (s.r6 % 65536)).1
    let m1 := (s.memory.get (s.r6 % 65536)).2
    let r6a := (s.r6 + 1) % 65536
    let v2 := (m1.get r6a).1
    let m2 := (m1.get r6a).2
    let r6b := (r6a + 1) % 65536
    { s with pc := v1, psr := v2, saved_ssp := r6b, r6 := s.saved_usp, memory := m2 }
  else s.exception 0

/-- LC3::st. -/
def LC3.st (s : LC3) (instruction : Nat) : LC3 :=
  let sr := s.get_reg ((instruction >>> 9) &&& 7)
  let addr := (s.pc + sign_extend (instruction &&& 0b111111111) 9) % 65536
  { s with memory := s.memory.put addr sr }

/-- LC3::sti. -/
def LC3.sti (s : LC3) (instruction : Nat) : LC3 :=
  let sr := s.get_reg ((instruction >>> 9) &&& 7)
  let addr := (s.pc + sign_extend (instruction &&& 0b111111111) 9) % 65536
  let addr2 := (s.memory.get addr).1
  let m1 := (s.memory.get addr).2
  { s with memory := m1.put (addr2 % 65536) sr }

/-- LC3::stor (the STR instruction). -/
def LC3.stor (s : LC3) (instruction : Nat) : LC3 :=
  let sr := s.get_reg ((instruction >>> 9) &&& 7)
  let base_r := s.get_reg ((instruction >>> 6) &&& 7)
  let addr := (base_r + sign_extend (instruction &&& 0b111111) 6) % 65536
  { s with memory := s.memory.put addr sr }

/-- LC3::trap. -/
def LC3.trap (s : LC3) (instruction : Nat) : LC3 :=
  let vector_index := instruction &&& 0b11111111
  let v := (s.memory.get vector_index).1
  let m := (s.memory.get vector_index).2
  { s with r7 := s.pc, memory := m, pc := v }

/-- LC3::interrupt: reject when interrupt enable is not 1 or when the
requested priority does not strictly exceed PSR bits 10-8; otherwise deliver
the keystroke, context-save, set the priority field and dispatch. The pair
returns the Result together with the post-call state. -/
def LC3.interrupt (s : LC3) (code : Nat) (priority : Nat) (data : Nat) :
    Except String Nat × LC3 :=
  if ¬ s.ie = 1 then (Except.error "Interrupt Enable is 0", s)
  else
    let prio := (s.psr >>> 8) &&& 7
    if priority ≤ prio then
      (Except.error "Currently servicing a higher or equal priority task.", s)
    else
      let m0 := s.memory.put 0xFE02 data
      let m1 := { m0 with keyboard_ready := true }
      let r6b := (s.saved_ssp + 65535) % 65536
      let m2 := m1.put r6b s.psr
      let r6c := (r6b + 65535) % 65536
      let m3 := m2.put r6c s.pc
      let psr1 := (s.psr &&& 0b0111100011111111) ||| ((priority &&& 7) <<< 8)
      let v := (m3.get (0x100 + code)).1
      let m4 := (m3.get (0x100 + code)).2
      (Except.ok priority,
        { s with memory := m4, saved_usp := s.r6, r6 := r6c, psr := psr1, pc := v })

/-- The fetch-decode-execute part of LC3::clock (the body of the
if !self.halted block); none models the overflow panic reachable through
register-mode ADD. -/
def LC3.execPhase (s : LC3) : Option LC3 :=
  if s.halted then some s
  else
    let instruction := (s.memory.get (s.pc % 65536)).1
    let m := (s.memory.get (s.pc % 65536)).2
    let s1 := { s with memory := m, pc := (s.pc + 1) % 65536 }
    let code := (instruction &&& 0b1111000000000000) >>> 12
    match code with
    | 1 => s1.add instruction
    | 5 => some (s1.and instruction)
    | 0 => some (s1.br instruction)
    | 12 => some (s1.jmp instruction)
    | 4 => some (s1.jsr instruction)
    | 2 => some (s1.ld instruction)
    | 10 => some (s1.ldi instruction)
    | 6 => some (s1.ldr instruction)
    | 14 => some (s1.lea instruction)
    | 9 => some (s1.not instruction)
    | 8 => some (s1.rti instruction)
    | 3 => some (s1.st instruction)
    | 11 => some (s1.sti instruction)
    | 7 => some (s1.stor instruction)
    | 15 => some (s1.trap instruction)
    | _ => some (s1.exception 1)

/-- The event-reporting tail of LC3::clock: drain a pending display
character, then check the run/halt control register (overwriting the
reported event), then hand out and reset last_io. -/
def LC3.eventPhase (s : LC3) : LC3Event × LC3 :=
  let s1 :=
    match s.memory.last_char with
    | some c =>
        { s with last_ev := LC3Event.Display c,
                 memory := { s.memory with last_char := none } }
    | none => s
  let v := (s1.memory.get 0xFFFE).1
  let m := (s1.memory.get 0xFFFE).2
  let s2 := { s1 with memory := m }
  let s3 := if v = 0 then { s2 with halted := true, last_ev := LC3Event.Halt } else s2
  (s3.last_ev, { s3 with last_ev := LC3Event.None })

/-- LC3::clock: one fetch-decode-execute step (skipped when halted) followed
by the event-reporting tail. -/
def LC3.clock (s : LC3) : Option (LC3Event × LC3) :=
  (s.execPhase).map LC3.eventPhase

/-- Exactly one of the three condition-flag bits of a PSR value is set. -/
def oneFlag (p : Nat) : Prop :=
  p &&& 7 = 1 ∨ p &&& 7 = 2 ∨ p &&& 7 = 4

/-- The flag condition on the optional result of an instruction that can
panic: vacuous on the panic path. -/
def flagsOnePost : Option LC3 → Prop
  | some t => oneFlag t.psr
  | none => True

/-- The flag the condition-code update selects for a result value: N (0b100)
when the signed reading is negative, Z (0b010) when zero, P (0b001) when
positive. -/
def flagOf (value : Nat) : Nat :=
  if i16ToInt value = 0 then 0b010
  else if 0 < i16ToInt value then 0b001
  else 0b100

/-- The result-to-flag correspondence for the destination register dr on the
optional outcome of an instruction that can panic: vacuous on the panic
path. -/
def flagsMatchPost (o : Option LC3) (dr : Nat) : Prop :=
  match o with
  | some t => t.psr &&& 7 = flagOf (t.get_reg dr)
  | none => True

/-! Concrete states used by the witnesses and counterexamples. -/

/-- A state whose N flag is set, with the program counter already past the
fetched branch instruction. -/
def brNState : LC3 := { LC3.new with psr := 4, pc := 0x3001 }

/-- A running state about to execute STR R0, R1, #0 (0x7040) with r1
pointing at the display-data register and the control register zero. -/
def strHaltState : LC3 :=
  { LC3.new with
    halted := false
    pc := 0x3000
    r0 := 65
    r1 := 0xFE06
    memory := { LC3Memory.new with mem := fun a => if a = 0x3000 then 0x7040 else 0 } }

/-- A halted state with a pending display character while the control
register reads zero. -/
def haltDisplayState : LC3 :=
  { LC3.new with memory := { LC3Memory.new with last_char := some 66 } }

/-- Source registers holding 0x7FFF and 1, the smallest overflowing
register-mode ADD input. -/
def addOvfState : LC3 := { LC3.new with r1 := 32767, r2 := 1 }

/-- A user-mode, priority-0 state with an interrupt handler address loaded
at vector 0x180. -/
def intrState : LC3 :=
  { LC3.new with
    psr := 0x8000
    pc := 0x3333
    r6 := 0xF000
    saved_ssp := 0x3000
    memory := { LC3Memory.new with mem := fun a => if a = 0x180 then 0x1200 else 0 } }

/-- A state already servicing priority 7. -/
def rejState : LC3 := { LC3.new with psr := 0x0700 }

/-- A user-mode state for the RTI privilege-violation branch. -/
def rtiUserState : LC3 :=
  { LC3.new with
    psr := 0x8000
    pc := 0x3001
    saved_ssp := 0x3000
    memory := { LC3Memory.new with mem := fun a => if a = 0x100 then 0x0200 else 0 } }

/-- A supervisor-mode state with a saved frame on the supervisor stack. -/
def rtiSupState : LC3 :=
  { LC3.new with
    psr := 0
    r6 := 0x2FFE
    saved_usp := 0xFE00
    memory := { LC3Memory.new with mem := fun a =>
      if a = 0x2FFE then 0x3001 else if a = 0x2FFF then 0x8001 else 0 } }

/-! Helper lemmas about the memory subsystem and bit fields. -/

theorem put_mem_eq (m : LC3Memory) (i v : Nat) : (m.put i v).mem (i % 65536) = v := by
  unfold LC3Memory.put
  split_ifs <;> simp

theorem put_mem_eq' (m : LC3Memory) (i v : Nat) (h : i < 65536) :
    (m.put i v).mem i = v := by
  have he := put_mem_eq m i v
  rwa [Nat.mod_eq_of_lt h] at he

theorem put_mem_ne (m : LC3Memory) (i v a : Nat) (h : a ≠ i % 65536) :
    (m.put i v).mem a = m.mem a := by
  unfold LC3Memory.put
  split_ifs <;> simp [h]

theorem put_keyboard (m : LC3Memory) (i v : Nat) :
    (m.put i v).keyboard_ready = m.keyboard_ready := by
  unfold LC3Memory.put
  split_ifs <;> rfl

theorem get_not_special (m : LC3Memory) (i : Nat)
    (h1 : i ≠ 0xFE04) (h2 : i ≠ 0xFE00) (h3 : i ≠ 0xFE02) :
    m.get i = (m.mem i, m) := by
  unfold LC3Memory.get
  simp [h1, h2, h3]

theorem put_reg_psr (s : LC3) (c d : Nat) : (s.put_reg c d).psr = s.psr := by
  unfold LC3.put_reg
  rcases hc : c &&& 7 with _ | _ | _ | _ | _ | _ | _ | n <;> rfl

theorem and_or_mask (p f : Nat) (hf : f < 8) : ((p &&& 65528) ||| f) &&& 7 = f := by
  apply Nat.eq_of_testBit_eq
  intro j
  have h7 : Nat.testBit 7 j = decide (j < 3) := by
    have h := Nat.testBit_two_pow_sub_one 3 j
    norm_num at h
    exact h
  have hm : Nat.testBit 65528 j = (decide (3 ≤ j) && Nat.testBit (2 ^ 13 - 1) (j - 3)) := by
    rw [show (65528 : Nat) = (2 ^ 13 - 1) <<< 3 by decide]
    exact Nat.testBit_shiftLeft _
  by_cases h : j < 3
  · simp [Nat.testBit_and, Nat.testBit_or, h7, hm, h, Nat.not_le.mpr h]
  · have h8 : (8 : Nat) ≤ 2 ^ j := by
      calc (8 : Nat) = 2 ^ 3 := by norm_num
        _ ≤ 2 ^ j := Nat.pow_le_pow_right (by norm_num) (by omega)
    have hfj : f.testBit j = false := Nat.testBit_lt_two_pow (lt_of_lt_of_le hf h8)
    simp [Nat.testBit_and, Nat.testBit_or, h7, h, hfj]

theorem oneFlag_codes (s : LC3) (v : Nat) : oneFlag (s.codes v).psr := by
  simp only [oneFlag, LC3.codes]
  split_ifs with h1 h2 h3
  · exact Or.inr (Or.inl (and_or_mask _ 2 (by norm_num)))
  · exact Or.inl (and_or_mask _ 1 (by norm_num))
  · exact Or.inr (Or.inr (and_or_mask _ 4 (by norm_num)))
  · omega

theorem priorityField (p q : Nat) (hq : q < 8) :
    (((p &&& 0x78FF) ||| (q <<< 8)) >>> 8) &&& 7 = q := by
  apply Nat.eq_of_testBit_eq
  intro j
  simp only [Nat.testBit_and, Nat.testBit_shiftRight, Nat.testBit_or,
    Nat.testBit_shiftLeft]
  rcases j with _ | _ | _ | j
  · simp [show Nat.testBit 0x78FF 8 = false by decide, show Nat.testBit 7 0 = true by decide]
  · simp [show Nat.testBit 0x78FF 9 = false by decide, show Nat.testBit 7 1 = true by decide]
  · simp [show Nat.testBit 0x78FF 10 = false by decide, show Nat.testBit 7 2 = true by decide]
  · have h8 : (8 : Nat) ≤ 2 ^ (j + 3) := by
      calc (8 : Nat) = 2 ^ 3 := by norm_num
        _ ≤ 2 ^ (j + 3) := Nat.pow_le_pow_right (by norm_num) (by omega)
    have h7 : Nat.testBit 7 (j + 3) = false :=
      Nat.testBit_lt_two_pow (lt_of_lt_of_le (by norm_num) h8)
    have hqj : q.testBit (j + 3) = false :=
      Nat.testBit_lt_two_pow (lt_of_lt_of_le hq h8)
    simp [h7, hqj]

theorem privBitZero (p q : Nat) :
    ((((p &&& 0x78FF) ||| ((q &&& 7) <<< 8))) >>> 15) &&& 1 = 0 := by
  have hb : Nat.testBit ((p &&& 0x78FF) ||| ((q &&& 7) <<< 8)) 15 = false := by
    simp only [Nat.testBit_or, Nat.testBit_and, Nat.testBit_shiftLeft]
    simp [show Nat.testBit 0x78FF 15 = false by decide,
      show Nat.testBit 7 7 = false by decide]
  rw [Nat.and_one_is_mod, Nat.shiftRight_eq_div_pow]
  rw [Nat.testBit_to_div_mod] at hb
  simp only [decide_eq_false_iff_not] at hb
  omega

theorem seGo_testBit (b : Nat) (hb : b < 2) :
    ∀ fuel ctr out j, (seGo b ctr out fuel).testBit j =
      (out.testBit j || decide (b = 1 ∧ ctr ≤ j ∧ j < ctr + fuel ∧ j < 16)) := by
  intro fuel
  induction fuel with
  | zero =>
      intro ctr out j
      have h : ¬(b = 1 ∧ ctr ≤ j ∧ j < ctr + 0 ∧ j < 16) := by omega
      rw [show seGo b ctr out 0 = out from rfl, decide_eq_false h, Bool.or_false]
  | succ f ih =>
      intro ctr out j
      unfold seGo
      by_cases hctr : ctr < 16
      · rw [if_pos hctr, ih]
        simp only [Nat.testBit_or, Nat.testBit_shiftLeft]
        rw [Bool.or_assoc]
        congr 1
        rcases (show b = 0 ∨ b = 1 by omega) with hb0 | hb1
        · subst hb0
          have h0 : ¬((0 : Nat) = 1 ∧ ctr + 1 ≤ j ∧ j < ctr + 1 + f ∧ j < 16) := by omega
          have h0' : ¬((0 : Nat) = 1 ∧ ctr ≤ j ∧ j < ctr + (f + 1) ∧ j < 16) := by omega
          rw [Nat.zero_testBit, Bool.and_false, Bool.false_or, decide_eq_false h0,
            decide_eq_false h0']
        · subst hb1
          have h1 : Nat.testBit 1 (j - ctr) = decide (0 = j - ctr) := by
            have h2p := Nat.testBit_two_pow (n := 0) (m := j - ctr)
            simpa using h2p
          rw [h1]
          rcases Nat.lt_or_ge j ctr with hj | hj
          · have e1 : ¬ ctr ≤ j := by omega
            have e2 : ¬((1 : Nat) = 1 ∧ ctr + 1 ≤ j ∧ j < ctr + 1 + f ∧ j < 16) := by omega
            have e3 : ¬((1 : Nat) = 1 ∧ ctr ≤ j ∧ j < ctr + (f + 1) ∧ j < 16) := by omega
            rw [decide_eq_false e1, Bool.false_and, Bool.false_or, decide_eq_false e2,
              decide_eq_false e3]
          · rcases Nat.lt_or_ge j (ctr + 1) with hj2 | hj2
            · have ej : j = ctr := by omega
              subst ej
              have e3 : ((1 : Nat) = 1 ∧ j ≤ j ∧ j < j + (f + 1) ∧ j < 16) :=
                ⟨rfl, le_refl j, by omega, hctr⟩
              rw [Nat.sub_self, decide_eq_true (show (0 : Nat) = 0 from rfl),
                decide_eq_true (show j ≤ j from le_refl j), Bool.true_and, Bool.true_or,
                decide_eq_true e3]
            · have e1 : ¬(0 = j - ctr) := by omega
              have e2 : ((1 : Nat) = 1 ∧ ctr + 1 ≤ j ∧ j < ctr + 1 + f ∧ j < 16) ↔
                  ((1 : Nat) = 1 ∧ ctr ≤ j ∧ j < ctr + (f + 1) ∧ j < 16) := by omega
              rw [decide_eq_false e1, Bool.and_false, Bool.false_or]
              exact decide_eq_decide.mpr e2
      · rw [if_neg hctr]
        have h : ¬(b = 1 ∧ ctr ≤ j ∧ j < ctr + (f + 1) ∧ j < 16) := by omega
        rw [decide_eq_false h, Bool.or_false]

theorem seGo_low_bit (b : Nat) (hb : b < 2) (n v : Nat) (h1 : 1 ≤ n) :
    ((seGo b n v 16) >>> (n - 1)) &&& 1 = (v >>> (n - 1)) &&& 1 := by
  have ht : (seGo b n v 16).testBit (n - 1) = v.testBit (n - 1) := by
    rw [seGo_testBit b hb]
    have h : ¬(b = 1 ∧ n ≤ n - 1 ∧ n - 1 < n + 16 ∧ n - 1 < 16) := by omega
    simp [h]
  rw [Nat.testBit_to_div_mod, Nat.testBit_to_div_mod, decide_eq_decide] at ht
  rw [Nat.and_one_is_mod, Nat.and_one_is_mod, Nat.shiftRight_eq_div_pow,
    Nat.shiftRight_eq_div_pow]
  omega

theorem oneFlag_codes_put (x : LC3) (v c d : Nat) :
    oneFlag ((x.codes v).put_reg c d).psr := by
  rw [put_reg_psr]
  exact oneFlag_codes x v

theorem get_reg_put_reg (x : LC3) (c d : Nat) : (x.put_reg c d).get_reg c = d := by
  unfold LC3.put_reg LC3.get_reg
  rcases hc : c &&& 7 with _ | _ | _ | _ | _ | _ | _ | n <;> rfl

theorem codes_flag (x : LC3) (v : Nat) : (x.codes v).psr &&& 7 = flagOf v := by
  simp only [LC3.codes, flagOf]
  split_ifs with h1 h2 h3
  · exact and_or_mask _ 2 (by norm_num)
  · exact and_or_mask _ 1 (by norm_num)
  · exact and_or_mask _ 4 (by norm_num)
  · omega

theorem put_reg_flag (x : LC3) (v c : Nat) :
    ((x.codes v).put_reg c v).psr &&& 7 =
      flagOf (((x.codes v).put_reg c v).get_reg c) := by
  rw [put_reg_psr, get_reg_put_reg]
  exact codes_flag x v

/-- Claim C1: the claim says BR reads the requested N bit from instruction
bit 11 and P from bit 9; the code reads N from bit 9 and P from bit 11.
With the N flag set, the standard BRn encoding 0x0805 (bit 11 set) does not
branch, while 0x0205 (bit 9 set, standard BRp) does. -/
theorem br_n_bit_swapped :
    (brNState.br 0x0805).pc = 0x3001 ∧ (brNState.br 0x0205).pc = 0x3006 := by
  exact ⟨by decide, by decide⟩

/-- Claim C3: register-mode ADD uses the unchecked i16 + operator: on
sources 0x7FFF and 1 it panics (none) instead of wrapping, while the
immediate mode of the very same instruction wraps to 0x8000. -/
theorem add_register_overflow_panics :
    i16AddChecked 32767 1 = none ∧
    addOvfState.add 0x1042 = none ∧
    (addOvfState.add 0x1061).map (fun t => t.r0) = some 32768 := by
  exact ⟨by decide, by rfl, by decide⟩

/-- Claim C8: sign extension is idempotent at every width 1..16, and
extending the 6-bit field 0b110100 to 16 bits reads back as -12. -/
theorem sign_extend_spec (n v : Nat) (h1 : 1 ≤ n) (h2 : n ≤ 16) :
    sign_extend (sign_extend v n) n = sign_extend v n ∧
    i16ToInt (sign_extend 0b110100 6) = -12 := by
  constructor
  · unfold sign_extend
    have hb : ((v >>> (n - 1)) &&& 1) < 2 := by
      rw [Nat.and_one_is_mod]
      omega
    rw [seGo_low_bit _ hb n v h1]
    apply Nat.eq_of_testBit_eq
    intro j
    rw [seGo_testBit _ hb, seGo_testBit _ hb, Bool.or_assoc, Bool.or_self]
  · decide

theorem sign_extend_spec_witness :
    sign_extend (sign_extend 300 6) 6 = sign_extend 300 6 ∧
    i16ToInt (sign_extend 0b110100 6) = -12 :=
  sign_extend_spec 6 300 (by decide) (by decide)

/-- Claim C10: start clears halted and stores 1 into the control register
at 0xFFFE, whatever was there before. -/
theorem start_spec (s : LC3) :
    (s.start).halted = false ∧ (s.start).memory.mem 0xFFFE = 1 := by
  refine ⟨rfl, ?_⟩
  show (s.memory.put 0xFFFE 1).mem 0xFFFE = 1
  have h := put_mem_eq s.memory 0xFFFE 1
  norm_num at h
  exact h

/-- Claim C5: a rejected interrupt (enable cleared, or priority not above
the current level) returns a named error and leaves the state untouched. -/
theorem interrupt_reject_spec (s : LC3) (code priority data : Nat)
    (h : s.ie = 0 ∨ priority ≤ (s.psr >>> 8) &&& 7) :
    (s.interrupt code priority data).2 = s ∧
    ∃ e, (s.interrupt code priority data).1 = Except.error e := by
  simp only [LC3.interrupt]
  rcases h with h | h
  · have hni : ¬ s.ie = 1 := by omega
    rw [if_pos hni]
    exact ⟨rfl, ⟨_, rfl⟩⟩
  · by_cases hie : s.ie = 1
    · rw [if_neg (not_not_intro hie), if_pos h]
      exact ⟨rfl, ⟨_, rfl⟩⟩
    · rw [if_pos hie]
      exact ⟨rfl, ⟨_, rfl⟩⟩

theorem interrupt_reject_spec_witness :
    (rejState.interrupt 0x80 1 65).2 = rejState ∧
    ∃ e, (rejState.interrupt 0x80 1 65).1 = Except.error e :=
  interrupt_reject_spec rejState 0x80 1 65 (Or.inr (by decide))

/-- Claim C9: every accepted interrupt clears PSR bit 15, switching the
processor into supervisor mode. -/
theorem interrupt_sets_supervisor (s : LC3) (code priority data r : Nat)
    (h : (s.interrupt code priority data).1 = Except.ok r) :
    ((s.interrupt code priority data).2.psr >>> 15) &&& 1 = 0 := by
  by_cases hie : s.ie = 1
  · by_cases hp : priority ≤ (s.psr >>> 8) &&& 7
    · exfalso
      simp only [LC3.interrupt, if_neg (not_not_intro hie), if_pos hp] at h
      exact Except.noConfusion h
    · simp only [LC3.interrupt, if_neg (not_not_intro hie), if_neg hp]
      exact privBitZero s.psr priority
  · exfalso
    simp only [LC3.interrupt, if_pos hie] at h
    exact Except.noConfusion h

theorem interrupt_sets_supervisor_witness :
    ((intrState.interrupt 0x80 1 65).2.psr >>> 15) &&& 1 = 0 :=
  interrupt_sets_supervisor intrState 0x80 1 65 1 (by rfl)

/-- Claim C7: ADD, AND, NOT, LD, LDI, LDR and LEA leave exactly one of the
three condition-flag bits set — N when the stored result reads negative, Z
when zero, P when positive — and BR, JMP, JSR, ST, STI, STR and TRAP leave
the flag bits unchanged. -/
theorem flag_update_spec (s : LC3) (i : Nat) :
    flagsOnePost (s.add i) ∧
    oneFlag (s.and i).psr ∧
    oneFlag (s.not i).psr ∧
    oneFlag (s.ld i).psr ∧
    oneFlag (s.ldi i).psr ∧
    oneFlag (s.ldr i).psr ∧
    oneFlag (s.lea i).psr ∧
    (s.br i).psr &&& 7 = s.psr &&& 7 ∧
    (s.jmp i).psr &&& 7 = s.psr &&& 7 ∧
    (s.jsr i).psr &&& 7 = s.psr &&& 7 ∧
    (s.st i).psr &&& 7 = s.psr &&& 7 ∧
    (s.sti i).psr &&& 7 = s.psr &&& 7 ∧
    (s.stor i).psr &&& 7 = s.psr &&& 7 ∧
    (s.trap i).psr &&& 7 = s.psr &&& 7 ∧
    flagsMatchPost (s.add i) ((i >>> 9) &&& 7) ∧
    (s.and i).psr &&& 7 = flagOf ((s.and i).get_reg ((i >>> 9) &&& 7)) ∧
    (s.not i).psr &&& 7 = flagOf ((s.not i).get_reg ((i >>> 9) &&& 7)) ∧
    (s.ld i).psr &&& 7 = flagOf ((s.ld i).get_reg ((i >>> 9) &&& 7)) ∧
    (s.ldi i).psr &&& 7 = flagOf ((s.ldi i).get_reg ((i >>> 9) &&& 7)) ∧
    (s.ldr i).psr &&& 7 = flagOf ((s.ldr i).get_reg ((i >>> 9) &&& 7)) ∧
    (s.lea i).psr &&& 7 = flagOf ((s.lea i).get_reg ((i >>> 9) &&& 7)) := by
  refine ⟨?_, ?_, ?_, ?_, ?_, ?_, ?_, ?_, ?_, ?_, ?_, ?_, ?_, ?_, ?_, ?_, ?_, ?_,
    ?_, ?_, ?_⟩
  · simp only [LC3.add]
    by_cases hm : mux i = true
    · rw [if_pos hm]
      exact oneFlag_codes_put _ _ _ _
    · rw [if_neg hm]
      rcases hck : i16AddChecked (s.get_reg ((i >>> 6) &&& 7)) (s.get_reg (i &&& 7))
        with _ | res
      · trivial
      · exact oneFlag_codes_put _ _ _ _
  · simp only [LC3.and]
    by_cases hm : mux i = true
    · rw [if_pos hm]
      exact oneFlag_codes_put _ _ _ _
    · rw [if_neg hm]
      exact oneFlag_codes_put _ _ _ _
  · exact oneFlag_codes_put _ _ _ _
  · exact oneFlag_codes_put _ _ _ _
  · exact oneFlag_codes_put _ _ _ _
  · exact oneFlag_codes_put _ _ _ _
  · exact oneFlag_codes_put _ _ _ _
  · simp only [LC3.br]
    split_ifs <;> rfl
  · rfl
  · simp only [LC3.jsr]
    split_ifs <;> rfl
  · rfl
  · rfl
  · rfl
  · rfl
  · simp only [LC3.add]
    by_cases hm : mux i = true
    · rw [if_pos hm]
      exact put_reg_flag _ _ _
    · rw [if_neg hm]
      rcases hck : i16AddChecked (s.get_reg ((i >>> 6) &&& 7)) (s.get_reg (i &&& 7))
        with _ | res
      · trivial
      · exact put_reg_flag _ _ _
  · simp only [LC3.and]
    by_cases hm : mux i = true
    · rw [if_pos hm]
      exact put_reg_flag _ _ _
    · rw [if_neg hm]
      exact put_reg_flag _ _ _
  · exact put_reg_flag _ _ _
  · exact put_reg_flag _ _ _
  · exact put_reg_flag _ _ _
  · exact put_reg_flag _ _ _
  · exact put_reg_flag _ _ _

theorem exception_pc (s : LC3) (code : Nat) (hc : code < 256)
    (h3 : (s.saved_ssp + 65535) % 65536 ≠ 0x100 + code)
    (h4 : ((s.saved_ssp + 65535) % 65536 + 65535) % 65536 ≠ 0x100 + code) :
    (s.exception code).pc = s.memory.mem (0x100 + code) := by
  show ((((s.memory.put ((s.saved_ssp + 65535) % 65536) s.psr).put
      (((s.saved_ssp + 65535) % 65536 + 65535) % 65536) s.pc)).get (0x100 + code)).1 =
    s.memory.mem (0x100 + code)
  rw [get_not_special _ _ (by omega) (by omega) (by omega)]
  show (((s.memory.put ((s.saved_ssp + 65535) % 65536) s.psr).put
      (((s.saved_ssp + 65535) % 65536 + 65535) % 65536) s.pc)).mem (0x100 + code) =
    s.memory.mem (0x100 + code)
  rw [put_mem_ne _ _ _ _ (by omega), put_mem_ne _ _ _ _ (by omega)]

/-- Claim C6: RTI in user mode pops nothing and raises internal exception 0,
dispatching through 0x0100; in supervisor mode it pops pc then psr,
incrementing r6 after each pop, saves the post-pop r6 into saved_ssp and
restores r6 from saved_usp. -/
theorem rti_spec (s : LC3) (i : Nat) :
    ((s.psr >>> 15) &&& 1 = 1 →
      s.rti i = s.exception 0 ∧
      ((s.saved_ssp + 65535) % 65536 ≠ 0x100 →
       ((s.saved_ssp + 65535) % 65536 + 65535) % 65536 ≠ 0x100 →
       (s.rti i).pc = s.memory.mem 0x100)) ∧
    ((s.psr >>> 15) &&& 1 = 0 →
      (s.rti i).pc = (s.memory.get (s.r6 % 65536)).1 ∧
      (s.rti i).psr = ((s.memory.get (s.r6 % 65536)).2.get ((s.r6 + 1) % 65536)).1 ∧
      (s.rti i).saved_ssp = (s.r6 + 2) % 65536 ∧
      (s.rti i).r6 = s.saved_usp) := by
  constructor
  · intro h
    have hne : ¬ ((s.psr >>> 15) &&& 1 = 0) := by omega
    have hr : s.rti i = s.exception 0 := by
      simp only [LC3.rti]
      rw [if_neg hne]
    refine ⟨hr, fun h3 h4 => ?_⟩
    rw [hr]
    have he := exception_pc s 0 (by norm_num) (by omega) (by omega)
    norm_num at he
    exact he
  · intro h
    simp only [LC3.rti]
    rw [if_pos h]
    refine ⟨rfl, rfl, ?_, rfl⟩
    show ((s.r6 + 1) % 65536 + 1) % 65536 = (s.r6 + 2) % 65536
    omega

theorem rti_spec_witness :
    (rtiUserState.rti 0x8000).pc = rtiUserState.memory.mem 0x100 ∧
    (rtiSupState.rti 0x8000).pc = (rtiSupState.memory.get (rtiSupState.r6 % 65536)).1 ∧
    (rtiSupState.rti 0x8000).saved_ssp = (rtiSupState.r6 + 2) % 65536 :=
  ⟨((rti_spec rtiUserState 0x8000).1 (by decide)).2 (by decide) (by decide),
   ((rti_spec rtiSupState 0x8000).2 (by decide)).1,
   ((rti_spec rtiSupState 0x8000).2 (by decide)).2.2.1⟩

/-- Claim C4: an accepted interrupt stores the data into the keyboard-data
cell 0xFE02, sets the keyboard-ready latch, shadows r6 into saved_usp,
switches to the supervisor stack and pushes psr then pc (decrementing r6
before each push), sets the PSR priority field to the requested priority,
fetches pc from 0x0100 + code and returns Ok with the serviced priority. -/
theorem interrupt_accept_spec (s : LC3) (code priority data : Nat)
    (hcode : code < 256) (hpr : priority < 8)
    (hie : s.ie = 1) (hprio : (s.psr >>> 8) &&& 7 < priority)
    (h1 : (s.saved_ssp + 65535) % 65536 ≠ 0xFE02)
    (h2 : ((s.saved_ssp + 65535) % 65536 + 65535) % 65536 ≠ 0xFE02)
    (h3 : (s.saved_ssp + 65535) % 65536 ≠ 0x100 + code)
    (h4 : ((s.saved_ssp + 65535) % 65536 + 65535) % 65536 ≠ 0x100 + code) :
    (s.interrupt code priority data).1 = Except.ok priority ∧
    (s.interrupt code priority data).2.memory.mem 0xFE02 = data ∧
    (s.interrupt code priority data).2.memory.keyboard_ready = true ∧
    (s.interrupt code priority data).2.saved_usp = s.r6 ∧
    (s.interrupt code priority data).2.r6 =
      ((s.saved_ssp + 65535) % 65536 + 65535) % 65536 ∧
    (s.interrupt code priority data).2.memory.mem ((s.saved_ssp + 65535) % 65536) =
      s.psr ∧
    (s.interrupt code priority data).2.memory.mem
      (((s.saved_ssp + 65535) % 65536 + 65535) % 65536) = s.pc ∧
    ((s.interrupt code priority data).2.psr >>> 8) &&& 7 = priority ∧
    (s.interrupt code priority data).2.pc = s.memory.mem (0x100 + code) := by
  have hni : ¬¬ s.ie = 1 := not_not_intro hie
  have hp : ¬ priority ≤ (s.psr >>> 8) &&& 7 := by omega
  have hget : ∀ m : LC3Memory, m.get (0x100 + code) = (m.mem (0x100 + code), m) :=
    fun m => get_not_special m _ (by omega) (by omega) (by omega)
  have hand : priority &&& 7 = priority := by
    have hmod := Nat.and_pow_two_sub_one_eq_mod priority 3
    norm_num at hmod
    omega
  have hA : (s.interrupt code priority data).1 = Except.ok priority := by
    simp only [LC3.interrupt, if_neg hni, if_neg hp]
  have hB : (s.interrupt code priority data).2.memory.mem 0xFE02 = data := by
    simp only [LC3.interrupt, if_neg hni, if_neg hp, hget]
    rw [put_mem_ne _ _ _ _ (by omega), put_mem_ne _ _ _ _ (by omega)]
    show (s.memory.put 0xFE02 data).mem 0xFE02 = data
    exact put_mem_eq' s.memory 0xFE02 data (by norm_num)
  have hC : (s.interrupt code priority data).2.memory.keyboard_ready = true := by
    simp only [LC3.interrupt, if_neg hni, if_neg hp, hget]
    rw [put_keyboard, put_keyboard]
  have hD : (s.interrupt code priority data).2.saved_usp = s.r6 := by
    simp only [LC3.interrupt, if_neg hni, if_neg hp, hget]
  have hE : (s.interrupt code priority data).2.r6 =
      ((s.saved_ssp + 65535) % 65536 + 65535) % 65536 := by
    simp only [LC3.interrupt, if_neg hni, if_neg hp, hget]
  have hF : (s.interrupt code priority data).2.memory.mem
      ((s.saved_ssp + 65535) % 65536) = s.psr := by
    simp only [LC3.interrupt, if_neg hni, if_neg hp, hget]
    rw [put_mem_ne _ _ _ _ (by omega)]
    exact put_mem_eq' _ ((s.saved_ssp + 65535) % 65536) _ (by omega)
  have hG : (s.interrupt code priority data).2.memory.mem
      (((s.saved_ssp + 65535) % 65536 + 65535) % 65536) = s.pc := by
    simp only [LC3.interrupt, if_neg hni, if_neg hp, hget]
    exact put_mem_eq' _ (((s.saved_ssp + 65535) % 65536 + 65535) % 65536) _ (by omega)
  have hH : ((s.interrupt code priority data).2.psr >>> 8) &&& 7 = priority := by
    simp only [LC3.interrupt, if_neg hni, if_neg hp, hget]
    rw [hand]
    exact priorityField s.psr priority hpr
  have hI : (s.interrupt code priority data).2.pc = s.memory.mem (0x100 + code) := by
    simp only [LC3.interrupt, if_neg hni, if_neg hp, hget]
    rw [put_mem_ne _ _ _ _ (by omega), put_mem_ne _ _ _ _ (by omega),
      put_mem_ne _ _ _ _ (by omega)]
  exact ⟨hA, hB, hC, hD, hE, hF, hG, hH, hI⟩

theorem interrupt_accept_spec_witness :
    (intrState.interrupt 0x80 1 65).1 = Except.ok 1 ∧
    (intrState.interrupt 0x80 1 65).2.pc = intrState.memory.mem (0x100 + 0x80) := by
  have h := interrupt_accept_spec intrState 0x80 1 65 (by decide) (by decide) (by rfl)
    (by decide) (by decide) (by decide) (by decide) (by decide)
  exact ⟨h.1, h.2.2.2.2.2.2.2.2⟩

/-- Claim C2 (amended): when a display character is pending and the control
register reads 0 in the same clock call, the call reports Halt (the halt
check overwrites the display event), sets halted, and drains the character
latch, losing the character. -/
theorem clock_halt_priority (s t : LC3) (c : Nat)
    (hex : s.execPhase = some t)
    (hc : t.memory.last_char = some c)
    (hh : t.memory.mem 0xFFFE = 0) :
    s.clock = some (LC3Event.Halt, (t.eventPhase).2) ∧
    (t.eventPhase).2.halted = true ∧
    (t.eventPhase).2.memory.last_char = none := by
  have hget : ∀ m : LC3Memory, m.get 0xFFFE = (m.mem 0xFFFE, m) :=
    fun m => get_not_special m _ (by norm_num) (by norm_num) (by norm_num)
  have hev : t.eventPhase =
      (LC3Event.Halt,
        { t with halted := true, last_ev := LC3Event.None,
                 memory := { t.memory with last_char := none } }) := by
    simp only [LC3.eventPhase, hc, hget]
    simp only [show ({ t.memory with last_char := (none : Option Nat) }).mem = t.memory.mem
      from rfl, hh]
    rfl
  refine ⟨?_, ?_, ?_⟩
  · show (s.execPhase).map LC3.eventPhase = some (LC3Event.Halt, (t.eventPhase).2)
    rw [hex]
    show some (t.eventPhase) = some (LC3Event.Halt, (t.eventPhase).2)
    rw [hev]
  · rw [hev]
  · rw [hev]

theorem clock_halt_priority_witness :
    haltDisplayState.clock =
      some (LC3Event.Halt, (haltDisplayState.eventPhase).2) ∧
    (haltDisplayState.eventPhase).2.halted = true ∧
    (haltDisplayState.eventPhase).2.memory.last_char = none :=
  clock_halt_priority haltDisplayState haltDisplayState 66 (by rfl) (by rfl) (by rfl)

/-- Claim C2 (counterexample): executing STR into the display-data register
while the control register already reads 0 makes the same call report Halt,
not the produced character, and the character latch is drained (the
character is never reported). -/
theorem clock_halt_overrides_display :
    (strHaltState.clock).map Prod.fst = some LC3Event.Halt ∧
    ¬ (strHaltState.clock).map Prod.fst = some (LC3Event.Display 65) ∧
    (strHaltState.clock).map (fun p => p.2.memory.last_char) = some none := by
  exact ⟨by rfl, by decide, by rfl⟩
